import Mathlib

/-!
Verification of the device-session core of the `pyindi_seestar` repository.

Shallow embedding: the Python functions of `src/device/seestar_device.py` and
`src/indi/socket_connections.py` that the verified properties talk about are
translated into executable Lean definitions (Python dicts become association
lists, floats become rationals, device interaction becomes explicit
environment oracles, unbounded `while` loops become fuel-indexed recursion
returning `Option`).  All theorems are stated about these definitions.
-/

namespace PyindiSeestar

/-! ### Python dictionary primitives

A Python `dict` keyed by strings is modelled as an insertion-ordered
association list.  Assigning to an existing key updates the value in place,
otherwise the pair is appended. -/

def setKey {α : Type} (m : List (String × α)) (k : String) (v : α) :
    List (String × α) :=
  if m.any (fun e => e.1 = k) then
    m.map (fun e => if e.1 = k then (k, v) else e)
  else
    m ++ [(k, v)]

def lookupKey {α : Type} (m : List (String × α)) (k : String) : Option α :=
  (m.find? (fun e => e.1 = k)).map (fun e => e.2)

theorem lookupKey_setKey {α : Type} (m : List (String × α)) (k : String) (v : α) :
    lookupKey (setKey m k v) k = some v := by
  unfold setKey lookupKey
  by_cases hmem : m.any (fun e => e.1 = k)
  · rw [if_pos hmem]
    induction m with
    | nil => simp at hmem
    | cons e rest ih =>
      by_cases he : e.1 = k
      · simp only [List.map_cons, if_pos he]
        rw [List.find?_cons_of_pos _ (by simp)]
        rfl
      · have hrest : rest.any (fun e => e.1 = k) := by
          simp only [List.any_cons, Bool.or_eq_true] at hmem
          rcases hmem with h | h
          · exact absurd (of_decide_eq_true h) he
          · exact h
        simp only [List.map_cons, if_neg he]
        rw [List.find?_cons_of_neg _ (by simpa using he)]
        exact ih hrest
  · rw [if_neg hmem]
    induction m with
    | nil =>
      simp only [List.nil_append]
      rw [List.find?_cons_of_pos _ (by simp)]
      rfl
    | cons e rest ih =>
      simp only [List.any_cons, Bool.or_eq_true, not_or] at hmem
      have he : ¬ e.1 = k := fun h => hmem.1 (by simpa using h)
      simp only [List.cons_append]
      rw [List.find?_cons_of_neg _ (by simpa using he)]
      exact ih (by simpa [List.any_eq_true] using hmem.2)

/-! ### C2 : `FixedSizeOrderedDict` (seestar_device.py lines 24-32)

Python dict keys are heterogeneous; the response dictionary holds integer
JSON-RPC ids but (due to the constructor bug) also a string key. -/

inductive PyKey where
  | str (s : String)
  | int (n : Int)
deriving DecidableEq

/-- `OrderedDict.__setitem__`: update in place when the key is present,
otherwise append at the end (newest position). -/
def odSetItem {α : Type} (l : List (PyKey × α)) (k : PyKey) (v : α) :
    List (PyKey × α) :=
  if l.any (fun e => e.1 = k) then
    l.map (fun e => if e.1 = k then (k, v) else e)
  else
    l ++ [(k, v)]

structure FixedSizeOrderedDict (α : Type) where
  maxsize : Option Nat
  entries : List (PyKey × α)
deriving DecidableEq

/-- `FixedSizeOrderedDict.__setitem__` (lines 29-32): when `maxsize` is set and
the dict already holds at least `maxsize` items, `popitem(last=False)` drops
the oldest entry before the ordinary `OrderedDict` assignment. -/
def fsodSetItem {α : Type} (d : FixedSizeOrderedDict α) (k : PyKey) (v : α) :
    FixedSizeOrderedDict α :=
  let d1 :=
    match d.maxsize with
    | some m =>
        if m ≤ d.entries.length then
          { d with entries := d.entries.drop 1 }
        else d
    | none => d
  { d1 with entries := odSetItem d1.entries k v }

/-- `FixedSizeOrderedDict.__init__(*args, maxsize=None, **kwargs)`
(lines 25-27): `self.maxsize` is taken from the keyword `maxsize` only; every
other keyword argument is forwarded to `OrderedDict.__init__`, which inserts
it as an entry through the overridden `__setitem__`. -/
def mkFixedSizeOrderedDict {α : Type} (maxsize : Option Nat)
    (kwargs : List (PyKey × α)) : FixedSizeOrderedDict α :=
  kwargs.foldl (fun d kv => fsodSetItem d kv.1 kv.2)
    { maxsize := maxsize, entries := [] }

/-- `Seestar.__init__` line 61: `self.response_dict = FixedSizeOrderedDict(max=100)`.
The call uses the keyword `max`, which is not the `maxsize` parameter, so it
lands in `kwargs` (becoming a dictionary entry) and `maxsize` stays `None`. -/
def seestarResponseDictInit : FixedSizeOrderedDict Int :=
  mkFixedSizeOrderedDict none [(PyKey.str "max", 100)]

/-- `receive_message_thread_fn` line 259: each response is stored under its
integer id; this folds a sequence of distinct response ids into the map. -/
def storeResponses (d : FixedSizeOrderedDict Int) (ids : List Int) :
    FixedSizeOrderedDict Int :=
  ids.foldl (fun d i => fsodSetItem d (PyKey.int i) i) d

set_option maxRecDepth 100000 in
/-- C2 (code bug): the PendingResponse map is NOT bounded at 100 entries.  As
constructed in `Seestar.__init__`, inserting 101 responses with distinct ids
leaves the map with 102 entries (the stray `max` keyword entry plus all 101
responses); nothing is ever evicted because `maxsize` is `None`. -/
theorem C2_response_dict_unbounded :
    (storeResponses seestarResponseDictInit
        ((List.range 101).map (fun n => (n : Int)))).entries.length = 102 ∧
      100 < (storeResponses seestarResponseDictInit
        ((List.range 101).map (fun n => (n : Int)))).entries.length := by
  constructor <;> decide

/-! ### C10 : mosaic grid validation (seestar_device.py lines 1388-1391) -/

/-- `start_mosaic_item` grid check: the item is rejected iff
`nRA < 1 or nDec < 0`; it proceeds to `mosaic_thread_fn` otherwise. -/
def mosaic_grid_valid (nRA nDec : Int) : Bool :=
  !(nRA < 1 || nDec < 0)

/-- C10 (code bug): the grid validation accepts `nRA = 1, nDec = 0`, which
does not satisfy `nRA ≥ 1 ∧ nDec ≥ 1`; `mosaic_thread_fn` then evaluates
`round(session_time / nRA / nDec)` with divisor `nRA · nDec = 0`
(a `ZeroDivisionError` in the source). -/
theorem C10_validation_gap :
    mosaic_grid_valid 1 0 = true ∧ ¬((1 : Int) ≥ 1 ∧ (0 : Int) ≥ 1) ∧
      (1 : Int) * 0 = 0 := by
  refine ⟨by decide, by decide, by decide⟩

/-! ### C1 : schedule edits while the scheduler is working
(seestar_device.py lines 1472-1541) -/

/-- A schedule item; `schedule_item_id` may be absent
(`item.get('schedule_item_id', 'UNKNOWN')`). -/
structure SchedItem where
  schedule_item_id : Option String
deriving DecidableEq

def getItemId (it : SchedItem) : String := it.schedule_item_id.getD "UNKNOWN"

structure Schedule where
  state : String
  current_item_id : String
  list : List SchedItem
deriving DecidableEq

/-- The guard scan of `replace_schedule_item` (lines 1478-1484), executed when
the scheduler state is `working`.  It walks the list looking for the targeted
item before the currently active one — but unlike its siblings
`remove_schedule_item` and `insert_schedule_item_before`, its body never
executes `index += 1`, so the index argument of the recursive call is left
unchanged.  Fuel-indexed; `none` means the loop did not terminate within the
given fuel.  The result is `(rejected, index at loop exit)`. -/
def replaceGuardLoop (lst : List SchedItem) (targeted active : String) :
    Nat → Nat → Option (Bool × Nat)
  | 0, _ => none
  | fuel + 1, index =>
    if h : index < lst.length then
      let itemId := getItemId (lst.get ⟨index, h⟩)
      if itemId = targeted then some (true, index)
      else if itemId = active then some (false, index)
      else replaceGuardLoop lst targeted active fuel index
    else some (false, index)

/-- The second scan of `replace_schedule_item` (lines 1486-1493): from the
given index on, substitute the first item whose id matches the target. -/
def replaceScan (lst : List SchedItem) (targeted : String) (newItem : SchedItem) :
    List SchedItem :=
  match lst with
  | [] => []
  | it :: rest =>
    if getItemId it = targeted then newItem :: rest
    else it :: replaceScan rest targeted newItem

/-- `replace_schedule_item` (lines 1472-1494), fuel-indexed because its guard
scan need not terminate.  `none` = the call never returns. -/
def replace_schedule_item (sched : Schedule) (targetedItemId : String)
    (newItem : SchedItem) (fuel : Nat) : Option Schedule :=
  let guard :=
    if sched.state = "working" then
      replaceGuardLoop sched.list targetedItemId sched.current_item_id fuel 0
    else some (false, 0)
  match guard with
  | none => none
  | some (true, _) => some sched
  | some (false, idx) =>
      some { sched with
              list := sched.list.take idx ++
                      replaceScan (sched.list.drop idx) targetedItemId newItem }

/-- The schedule of the failing input: three items `a`, `b`, `c`; the
scheduler is working and is currently executing `b`. -/
def c1Schedule : Schedule :=
  { state := "working", current_item_id := "b",
    list := [⟨some "a"⟩, ⟨some "b"⟩, ⟨some "c"⟩] }

/-- C1 (code bug): `replace_schedule_item`, called while the scheduler is
working on item `b` to replace item `c` (which does NOT precede the executing
item, so per the spec the call should terminate and substitute), never
returns: its guard scan inspects the head item `a` forever because the loop
body is missing the `index += 1` its sibling functions have. -/
theorem C1_replace_never_terminates :
    ∀ fuel : Nat,
      replace_schedule_item c1Schedule "c" ⟨some "c2"⟩ fuel = none := by
  have key : ∀ fuel : Nat,
      replaceGuardLoop c1Schedule.list "c" c1Schedule.current_item_id fuel 0
        = none := by
    intro fuel
    induction fuel with
    | zero => rfl
    | succ n ih =>
      have h0 : getItemId (c1Schedule.list.get ⟨0, by decide⟩) = "a" := rfl
      simp only [replaceGuardLoop]
      rw [dif_pos (by decide)]
      simp only [h0]
      rw [if_neg (by decide), if_neg (by decide)]
      exact ih
  intro fuel
  unfold replace_schedule_item
  rw [if_pos (by decide)]
  rw [key fuel]

/-! ### C4 : horizon-offset symmetry
(`_slew_to_ra_dec` lines 474-489; `update_equ_coord` lines 204-208) -/

/-- An outgoing JSON-RPC message whose params are a coordinate pair. -/
structure RpcMsg where
  method : String
  params : List ℚ
deriving DecidableEq

/-- The `scope_goto` message built by `_slew_to_ra_dec` (lines 478-481):
`params = [in_ra, in_dec + self.below_horizon_dec_offset]`. -/
def slew_to_ra_dec_msg (below_horizon_dec_offset in_ra in_dec : ℚ) : RpcMsg :=
  { method := "scope_goto",
    params := [in_ra, in_dec + below_horizon_dec_offset] }

/-- The Session's last known pointing (`self.ra`, `self.dec`). -/
structure Pointing where
  ra : ℚ
  dec : ℚ
deriving DecidableEq

/-- A parsed `scope_get_equ_coord` response: method plus an optional
`result` carrying the device's `(ra, dec)`. -/
structure EquResponse where
  method : String
  result : Option (ℚ × ℚ)
deriving DecidableEq

/-- `update_equ_coord` (lines 204-208): on a `scope_get_equ_coord` response
carrying a result, store `ra` as-is and `dec` minus
`below_horizon_dec_offset`. -/
def update_equ_coord (st : Pointing) (below_horizon_dec_offset : ℚ)
    (parsed : EquResponse) : Pointing :=
  if parsed.method = "scope_get_equ_coord" then
    match parsed.result with
    | some r => { ra := r.1, dec := r.2 - below_horizon_dec_offset }
    | none => st
  else st

/-- The response of a device that echoes back the exact position it was
slewed to by a `scope_goto` message. -/
def echoResponse (msg : RpcMsg) : EquResponse :=
  { method := "scope_get_equ_coord",
    result := some (msg.params.getD 0 0, msg.params.getD 1 0) }

/-- C4 (confirmed): slewing adds the offset to the requested declination on
the wire, incoming equatorial coordinates have the offset subtracted, and so
a device that echoes the slewed position surfaces exactly the requested
`(ra, dec)`. -/
theorem C4_horizon_offset_symmetry (st : Pointing) (o ra dec : ℚ) :
    (slew_to_ra_dec_msg o ra dec).params = [ra, dec + o] ∧
    (∀ r1 r2 : ℚ,
        update_equ_coord st o { method := "scope_get_equ_coord",
                                result := some (r1, r2) } =
          { ra := r1, dec := r2 - o }) ∧
    update_equ_coord st o (echoResponse (slew_to_ra_dec_msg o ra dec)) =
      { ra := ra, dec := dec } := by
  refine ⟨rfl, fun r1 r2 => rfl, ?_⟩
  unfold update_equ_coord echoResponse slew_to_ra_dec_msg
  simp only [if_pos rfl]
  simp [Pointing.mk.injEq]

/-! ### C3 / C7 : the auto-center loop (`auto_center_thread`,
seestar_device.py lines 814-866)

The device is abstracted by `solve : Nat → ℚ × ℚ`, the plate-solve position
delivered (via the Dispatcher) in answer to the `i`-th `start_solve`; the
scheduler never requests a stop, matching both claims.  The loop is
fuel-indexed; `none` means it did not terminate within the fuel. -/

structure ACResult where
  state : String
  cycles : Nat
  iters : Nat
deriving DecidableEq

/-- One-to-one translation of the `while` loop of `auto_center_thread`:
`count` is `search_count`, `idx` counts `start_solve` requests already
answered, `cycles` counts executed sync + re-slew pairs
(`_sync_target` / `_slew_to_ra_dec`, lines 855-856).  A solve result of
`(0, 0)` is the in-band plate-solve-failure signal (lines 282-285, 836). -/
def autoCenterAux (solve : Nat → ℚ × ℚ) (target_ra target_dec : ℚ) :
    Nat → Nat → Nat → Nat → Option ACResult
  | 0, _, _, _ => none
  | fuel + 1, count, idx, cycles =>
    if (solve idx).1 = 0 ∧ (solve idx).2 = 0 then
      if 5 < count then some ⟨"fail", cycles, idx + 1⟩
      else autoCenterAux solve target_ra target_dec fuel (count + 1) (idx + 1)
        cycles
    else
      if ((solve idx).1 - target_ra) * ((solve idx).1 - target_ra) +
          ((solve idx).2 - target_dec) * ((solve idx).2 - target_dec)
          < 1 / 1000 then
        some ⟨"complete", cycles, idx + 1⟩
      else if count ≤ 7 then
        autoCenterAux solve target_ra target_dec fuel (count + 1) (idx + 1)
          (cycles + 1)
      else some ⟨"fail", cycles, idx + 1⟩

/-- `auto_center_thread` entry: `search_count = 0`, no solve yet, no
sync/slew cycle yet. -/
def auto_center_thread (solve : Nat → ℚ × ℚ) (target_ra target_dec : ℚ)
    (fuel : Nat) : Option ACResult :=
  autoCenterAux solve target_ra target_dec fuel 0 0 0

/-- Abbreviation for the squared plate-solve distance of the `i`-th solve
from the target (`delta_ra**2 + delta_dec**2`, lines 846-849). -/
def solveDistSq (solve : Nat → ℚ × ℚ) (target_ra target_dec : ℚ) (i : Nat) :
    ℚ :=
  ((solve i).1 - target_ra) * ((solve i).1 - target_ra) +
    ((solve i).2 - target_dec) * ((solve i).2 - target_dec)

/-- Helper: when every solve result is both distinct from the failure
sentinel `(0,0)` and non-convergent, the loop runs the full schedule of
re-attempts: from `search_count = count ≤ 8` it performs `8 - count` more
sync+slew cycles and `9 - count` more iterations, then fails. -/
theorem autoCenterExactFail (solve : Nat → ℚ × ℚ) (target_ra target_dec : ℚ)
    (h1 : ∀ i, ¬ ((solve i).1 = 0 ∧ (solve i).2 = 0))
    (h2 : ∀ i, ¬ (solveDistSq solve target_ra target_dec i < 1 / 1000)) :
    ∀ fuel count idx cycles, count ≤ 8 → 9 ≤ fuel + count →
      autoCenterAux solve target_ra target_dec fuel count idx cycles =
        some ⟨"fail", cycles + (8 - count), idx + (9 - count)⟩ := by
  intro fuel
  induction fuel with
  | zero => intro count idx cycles hc hf; omega
  | succ f ih =>
    intro count idx cycles hc hf
    have hnc := h2 idx
    unfold solveDistSq at hnc
    by_cases h7 : count ≤ 7
    · have step := ih (count + 1) (idx + 1) (cycles + 1) (by omega) (by omega)
      have e1 : cycles + 1 + (8 - (count + 1)) = cycles + (8 - count) := by
        omega
      have e2 : idx + 1 + (9 - (count + 1)) = idx + (9 - count) := by omega
      rw [e1, e2] at step
      simp only [autoCenterAux, if_neg (h1 idx), if_neg hnc, if_pos h7]
      exact step
    · have hc8 : count = 8 := by omega
      subst hc8
      simp only [autoCenterAux, if_neg (h1 idx), if_neg hnc,
        if_neg (by omega : ¬ (8 ≤ 7))]
      norm_num

/-- C3 (counterexample): with a device whose plate solves always land 1° off
in RA from the target `(10, 20)` (never converging, never failing), the
auto-center loop performs 8 sync + re-slew cycles — not at most 7 — before
ending with `custom_goto_state = "fail"` at its 9th iteration. -/
theorem C3_counterexample :
    auto_center_thread (fun _ => ((11 : ℚ), 20)) 10 20 20 =
        some ⟨"fail", 8, 9⟩ ∧ ¬ (8 ≤ 7) := by
  constructor
  · have h1 : ∀ i : Nat,
        ¬ (((fun _ => ((11 : ℚ), 20)) i : ℚ × ℚ).1 = 0 ∧
           ((fun _ => ((11 : ℚ), 20)) i : ℚ × ℚ).2 = 0) := by
      intro i
      show ¬ ((11 : ℚ) = 0 ∧ (20 : ℚ) = 0)
      decide
    have h2 : ∀ i : Nat,
        ¬ (solveDistSq (fun _ => ((11 : ℚ), 20)) 10 20 i < 1 / 1000) := by
      intro i
      unfold solveDistSq
      norm_num
    have := autoCenterExactFail (fun _ => ((11 : ℚ), 20)) 10 20 h1 h2
      20 0 0 0 (by omega) (by omega)
    simpa [auto_center_thread] using this
  · omega

/-- C3 (amended): if every plate-solve result is at least 1 degree off the
target (squared distance ≥ 1) and no stop is requested, the auto-center loop
terminates with `custom_goto_state = "fail"` after at most 8 (not 7)
sync + re-slew cycles. -/
theorem C3_amended (solve : Nat → ℚ × ℚ) (target_ra target_dec : ℚ)
    (h : ∀ i, 1 ≤ solveDistSq solve target_ra target_dec i) :
    ∃ r : ACResult,
      auto_center_thread solve target_ra target_dec 10 = some r ∧
        r.state = "fail" ∧ r.cycles ≤ 8 := by
  have key : ∀ fuel count idx cycles, count ≤ 8 → 9 ≤ fuel + count →
      ∃ r : ACResult,
        autoCenterAux solve target_ra target_dec fuel count idx cycles =
            some r ∧
          r.state = "fail" ∧ r.cycles ≤ cycles + (8 - count) := by
    intro fuel
    induction fuel with
    | zero => intro count idx cycles hc hf; omega
    | succ f ih =>
      intro count idx cycles hc hf
      have hnc : ¬ (((solve idx).1 - target_ra) * ((solve idx).1 - target_ra)
          + ((solve idx).2 - target_dec) * ((solve idx).2 - target_dec)
          < 1 / 1000) := by
        intro hlt
        have h1 := h idx
        unfold solveDistSq at h1
        have : (1 : ℚ) < 1 / 1000 := lt_of_le_of_lt h1 hlt
        norm_num at this
      by_cases hs : (solve idx).1 = 0 ∧ (solve idx).2 = 0
      · by_cases h5 : 5 < count
        · exact ⟨⟨"fail", cycles, idx + 1⟩,
            by simp only [autoCenterAux, if_pos hs, if_pos h5], rfl,
            by show cycles ≤ cycles + (8 - count); omega⟩
        · obtain ⟨r, hr, hst, hcy⟩ := ih (count + 1) (idx + 1) cycles
            (by omega) (by omega)
          refine ⟨r, ?_, hst, by omega⟩
          simp only [autoCenterAux, if_pos hs, if_neg h5]
          exact hr
      · by_cases h7 : count ≤ 7
        · obtain ⟨r, hr, hst, hcy⟩ := ih (count + 1) (idx + 1) (cycles + 1)
            (by omega) (by omega)
          refine ⟨r, ?_, hst, by omega⟩
          simp only [autoCenterAux, if_neg hs, if_neg hnc, if_pos h7]
          exact hr
        · exact ⟨⟨"fail", cycles, idx + 1⟩,
            by simp only [autoCenterAux, if_neg hs, if_neg hnc, if_neg h7],
            rfl, by show cycles ≤ cycles + (8 - count); omega⟩
  obtain ⟨r, hr, hst, hcy⟩ := key 10 0 0 0 (by omega) (by omega)
  exact ⟨r, hr, hst, by omega⟩

/-- Witness for `C3_amended` at the concrete device `solve ≡ (1, 0)` and
target `(0, 0)`: the hypothesis (every solve at least 1° off) holds and the
loop ends in `fail` within 8 cycles. -/
theorem C3_amended_witness :
    (∀ i : Nat, 1 ≤ solveDistSq (fun _ => ((1 : ℚ), 0)) 0 0 i) ∧
      ∃ r : ACResult,
        auto_center_thread (fun _ => ((1 : ℚ), 0)) 0 0 10 = some r ∧
          r.state = "fail" ∧ r.cycles ≤ 8 := by
  have hyp : ∀ i : Nat, 1 ≤ solveDistSq (fun _ => ((1 : ℚ), 0)) 0 0 i := by
    intro i
    unfold solveDistSq
    simp
  exact ⟨hyp, C3_amended (fun _ => ((1 : ℚ), 0)) 0 0 hyp⟩

/-- C7 (counterexample): when the target is exactly `(0, 0)` and every plate
solve matches it exactly, the auto-center loop can never complete: the
matching result `(0, 0)` is indistinguishable from the plate-solve-failure
sentinel, so after 7 iterations the loop ends with state `"fail"`, not
`"complete"`. -/
theorem C7_counterexample :
    auto_center_thread (fun _ => ((0 : ℚ), 0)) 0 0 20 =
        some ⟨"fail", 0, 7⟩ ∧ ("fail" : String) ≠ "complete" := by
  constructor
  · decide
  · decide

/-- C7 (amended): provided the target is not exactly `(0, 0)`, if every
`start_solve` yields a result exactly matching the target (squared distance
0 < 1e-3) and no stop is requested, the loop terminates in exactly one
iteration with `custom_goto_state = "complete"`, issuing no sync and no
re-slew. -/
theorem C7_amended (solve : Nat → ℚ × ℚ) (target_ra target_dec : ℚ)
    (fuel : Nat) (hmatch : ∀ i, solve i = (target_ra, target_dec))
    (hnz : ¬ (target_ra = 0 ∧ target_dec = 0)) :
    auto_center_thread solve target_ra target_dec (fuel + 1) =
      some ⟨"complete", 0, 1⟩ := by
  unfold auto_center_thread
  have h0 : solve 0 = (target_ra, target_dec) := hmatch 0
  have hzero : (target_ra - target_ra) * (target_ra - target_ra) +
      (target_dec - target_dec) * (target_dec - target_dec) < 1 / 1000 := by
    rw [sub_self, sub_self]
    norm_num
  simp only [autoCenterAux, h0]
  rw [if_neg hnz, if_pos hzero]

/-- Witness for `C7_amended` with target `(10, 20)` and a device always
solving exactly to the target: one iteration, state complete, no cycles. -/
theorem C7_amended_witness :
    (∀ i : Nat, (fun _ => ((10 : ℚ), (20 : ℚ))) i = (10, 20)) ∧
      ¬ ((10 : ℚ) = 0 ∧ (20 : ℚ) = 0) ∧
      auto_center_thread (fun _ => ((10 : ℚ), 20)) 10 20 4 =
        some ⟨"complete", 0, 1⟩ :=
  ⟨fun _ => rfl, by decide,
    C7_amended (fun _ => ((10 : ℚ), 20)) 10 20 3 (fun _ => rfl) (by decide)⟩

/-! ### C5 : mosaic time budget (`mosaic_thread_fn`,
seestar_device.py lines 1263-1288) -/

/-- Python's built-in `round`: round half to even (banker's rounding). -/
def pythonRound (q : ℚ) : ℤ :=
  if q - ⌊q⌋ < 1 / 2 then ⌊q⌋
  else if 1 / 2 < q - ⌊q⌋ then ⌊q⌋ + 1
  else if ⌊q⌋ % 2 = 0 then ⌊q⌋ else ⌊q⌋ + 1

/-- Line 1284: `sleep_time_per_panel = round(session_time / nRA / nDec)`. -/
def sleep_time_per_panel (session_time : ℚ) (nRA nDec : ℤ) : ℤ :=
  pythonRound (session_time / (nRA : ℚ) / (nDec : ℚ))

/-- Lines 1270-1276: `num_panels = nRA*nDec`, unless a nonempty
`selected_panels` string is given, in which case it is the length of its
`;`-split. -/
def mosaic_num_panels (nRA nDec : ℤ) (selected_panels : String) : ℤ :=
  if selected_panels = "" then nRA * nDec
  else ((selected_panels.splitOn ";").length : ℤ)

/-- Line 1286: `item_remaining_time_s = sleep_time_per_panel * num_panels`,
reported as `item_total_time_s` in the scheduler item state (line 1287). -/
def item_total_time_s (session_time : ℚ) (nRA nDec : ℤ)
    (selected_panels : String) : ℤ :=
  sleep_time_per_panel session_time nRA nDec *
    mosaic_num_panels nRA nDec selected_panels

/-- C5 (counterexample): for session time `T = 7` s and a `2 × 1` grid the
code's per-panel budget is `round(7/2) = 4` (Python rounds half to even),
whereas the claimed `⌊T / (nRA·nDec)⌋` is `3`. -/
theorem C5_counterexample :
    sleep_time_per_panel 7 2 1 = 4 ∧ ⌊(7 : ℚ) / (2 * 1 : ℚ)⌋ = 3 ∧
      (4 : ℤ) ≠ 3 := by
  refine ⟨?_, by norm_num, by decide⟩
  unfold sleep_time_per_panel pythonRound
  norm_num

/-- C5 (amended): the per-panel stacking budget equals
`round_half_to_even(T / (nRA·nDec))` — Python's `round`, not the floor — and
the reported `item_total_time_s` is that budget multiplied by the number of
panels actually scheduled (all `nRA·nDec` panels, or the count of selected
panels when a nonempty selection is given). -/
theorem C5_amended (T : ℚ) (nRA nDec : ℤ) (sel : String) :
    sleep_time_per_panel T nRA nDec =
        pythonRound (T / ((nRA * nDec : ℤ) : ℚ)) ∧
      item_total_time_s T nRA nDec sel =
        sleep_time_per_panel T nRA nDec *
          (if sel = "" then nRA * nDec else ((sel.splitOn ";").length : ℤ)) := by
  constructor
  · unfold sleep_time_per_panel
    rw [div_div, Int.cast_mul]
  · rfl

/-! ### C8 : PiStatus demultiplexing
(seestar_device.py lines 261-285; socket_connections.py lines 204-213) -/

/-- A parsed device event: its `Event` name plus the set of other top-level
payload keys (Python's `"temp" in parsed` looks at these). -/
structure PyEvent where
  event : String
  keys : List String
deriving DecidableEq

/-- `Seestar.receive_message_thread_fn`, event branch (lines 271-272): the
key used for `event_state` is `parsed_data['Event']` verbatim — no
demultiplexing. -/
def device_event_key (p : PyEvent) : String := p.event

/-- Storing in the Session's `event_state` (line 272). -/
def device_store_event (m : List (String × PyEvent)) (p : PyEvent) :
    List (String × PyEvent) :=
  setKey m (device_event_key p) p

/-- `RPCConnectionManager.receive_loop`, event branch
(socket_connections.py lines 204-213): a `PiStatus` event key is suffixed by
payload shape before storing in `event_states`. -/
def rpc_event_key (p : PyEvent) : String :=
  if p.event = "PiStatus" then
    if p.keys.contains "temp" then p.event ++ "_temperature"
    else if p.keys.contains "battery_capacity" then p.event ++ "_battery"
    else p.event ++ "_other"
  else p.event

/-- Storing in the connection manager's `event_states` (line 213). -/
def rpc_store_event (m : List (String × PyEvent)) (p : PyEvent) :
    List (String × PyEvent) :=
  setKey m (rpc_event_key p) p

/-- A `PiStatus` event shaped like a temperature report. -/
def c8Event : PyEvent := { event := "PiStatus", keys := ["Timestamp", "temp"] }

/-- C8 (counterexample): the Session dispatcher
(`receive_message_thread_fn`) stores a temperature-shaped `PiStatus` event
under the plain key `PiStatus`, not under `PiStatus_temperature` /
`_battery` / `_other`; only the INDI `RPCConnectionManager` demultiplexes. -/
theorem C8_counterexample :
    lookupKey (device_store_event [] c8Event) "PiStatus" = some c8Event ∧
      device_event_key c8Event = "PiStatus" ∧
      device_event_key c8Event ≠ "PiStatus_temperature" ∧
      device_event_key c8Event ≠ "PiStatus_battery" ∧
      device_event_key c8Event ≠ "PiStatus_other" := by
  refine ⟨by decide, by decide, by decide, by decide, by decide⟩

/-- C8 (amended): the INDI `RPCConnectionManager` dispatcher demultiplexes
every incoming `PiStatus` event by payload shape and stores it under
`PiStatus_temperature`, `PiStatus_battery` or `PiStatus_other` (never under
the plain key `PiStatus`); the device Session dispatcher
(`receive_message_thread_fn`) instead stores it under the plain key
`PiStatus` without demultiplexing. -/
theorem C8_amended (p : PyEvent) (h : p.event = "PiStatus") :
    (rpc_event_key p = "PiStatus_temperature" ∨
       rpc_event_key p = "PiStatus_battery" ∨
       rpc_event_key p = "PiStatus_other") ∧
      rpc_event_key p ≠ "PiStatus" ∧
      device_event_key p = "PiStatus" := by
  unfold rpc_event_key device_event_key
  rw [if_pos h, h]
  by_cases ht : p.keys.contains "temp"
  · rw [if_pos ht]
    refine ⟨Or.inl (by decide), by decide, rfl⟩
  · rw [if_neg (by simpa using ht)]
    by_cases hb : p.keys.contains "battery_capacity"
    · rw [if_pos hb]
      refine ⟨Or.inr (Or.inl (by decide)), by decide, rfl⟩
    · rw [if_neg (by simpa using hb)]
      refine ⟨Or.inr (Or.inr (by decide)), by decide, rfl⟩

/-- Witness for `C8_amended` on a battery-shaped `PiStatus` event. -/
theorem C8_amended_witness :
    (PyEvent.mk "PiStatus" ["battery_capacity"]).event = "PiStatus" ∧
      ((rpc_event_key (PyEvent.mk "PiStatus" ["battery_capacity"]) =
          "PiStatus_temperature" ∨
        rpc_event_key (PyEvent.mk "PiStatus" ["battery_capacity"]) =
          "PiStatus_battery" ∨
        rpc_event_key (PyEvent.mk "PiStatus" ["battery_capacity"]) =
          "PiStatus_other") ∧
      rpc_event_key (PyEvent.mk "PiStatus" ["battery_capacity"]) ≠
        "PiStatus" ∧
      device_event_key (PyEvent.mk "PiStatus" ["battery_capacity"]) =
        "PiStatus") :=
  ⟨rfl, C8_amended (PyEvent.mk "PiStatus" ["battery_capacity"]) rfl⟩

/-! ### C9 : `wait_end_op` for non-goto events
(seestar_device.py lines 1685-1696) -/

/-- Line 1693: `self.event_state[in_op_name] = {"state":"stopped"}` —
executed unconditionally on entry to the non-goto branch.  Entries are
modelled by their `state` field. -/
def wait_end_op_init (event_state : List (String × String))
    (in_op_name : String) : List (String × String) :=
  setKey event_state in_op_name "stopped"

/-- Lines 1694-1696: poll the entry until its state is `complete` or `fail`;
`obs i` is the entry's state observed at the `i`-th poll (`none` = key
absent).  Returns `(exit index, state == "complete")`. -/
def wait_end_op_poll (obs : Nat → Option String) :
    Nat → Nat → Option (Nat × Bool)
  | 0, _ => none
  | fuel + 1, i =>
    match obs i with
    | none => wait_end_op_poll obs fuel (i + 1)
    | some s =>
      if s = "complete" ∨ s = "fail" then some (i, s == "complete")
      else wait_end_op_poll obs fuel (i + 1)

/-- The observation at index `j` is a terminal state. -/
def terminalObs (obs : Nat → Option String) (j : Nat) : Prop :=
  obs j = some "complete" ∨ obs j = some "fail"

/-- C9 (counterexample): `wait_end_op` does NOT leave an already-present
entry untouched — with `EventState = {X: complete}` the initialization step
overwrites the entry to `stopped`. -/
theorem C9_counterexample :
    lookupKey (wait_end_op_init [("X", "complete")] "X") "X" =
        some "stopped" ∧
      (some "stopped" : Option String) ≠ some "complete" := by
  refine ⟨by decide, by decide⟩

/-- C9 (amended): `wait_end_op` for a non-goto event name unconditionally
initializes `EventState[name] = {state: stopped}`, overwriting any entry
already present; it then polls until the entry's state is `complete` or
`fail` (no earlier poll having seen a terminal state) and returns true if
and only if the state it stopped at is `complete`. -/
theorem C9_amended :
    (∀ (m : List (String × String)) (name : String),
        lookupKey (wait_end_op_init m name) name = some "stopped") ∧
      ∀ (obs : Nat → Option String) (fuel i0 i : Nat) (b : Bool),
        wait_end_op_poll obs fuel i0 = some (i, b) →
          terminalObs obs i ∧ (b = true ↔ obs i = some "complete") ∧
            ∀ j, i0 ≤ j → j < i → ¬ terminalObs obs j := by
  constructor
  · intro m name
    exact lookupKey_setKey m name "stopped"
  · intro obs fuel
    induction fuel with
    | zero => intro i0 i b hrun; exact absurd hrun (by simp [wait_end_op_poll])
    | succ f ih =>
      intro i0 i b hrun
      unfold wait_end_op_poll at hrun
      cases hobs : obs i0 with
      | none =>
        rw [hobs] at hrun
        obtain ⟨hterm, hiff, hnone⟩ := ih (i0 + 1) i b hrun
        refine ⟨hterm, hiff, fun j hj1 hj2 hter => ?_⟩
        rcases Nat.eq_or_lt_of_le hj1 with rfl | hlt
        · rcases hter with hc | hc <;> rw [hobs] at hc <;> exact Option.noConfusion hc
        · exact hnone j hlt hj2 hter
      | some s =>
        rw [hobs] at hrun
        dsimp only at hrun
        by_cases hterm : s = "complete" ∨ s = "fail"
        · rw [if_pos hterm] at hrun
          have hi : i = i0 ∧ b = (s == "complete") := by
            have := Option.some.inj hrun
            exact ⟨(Prod.mk.injEq _ _ _ _ ▸ this).1.symm,
              ((Prod.mk.injEq _ _ _ _ ▸ this).2).symm⟩
          obtain ⟨rfl, rfl⟩ := hi
          refine ⟨?_, ?_, fun j hj1 hj2 _ => by omega⟩
          · rcases hterm with rfl | rfl
            · exact Or.inl hobs
            · exact Or.inr hobs
          · constructor
            · intro hbeq
              have hs : s = "complete" := eq_of_beq hbeq
              rw [← hs]; exact hobs
            · intro hc
              rcases hterm with rfl | rfl
              · simp
              · rw [hobs] at hc
                exact absurd (Option.some.inj hc) (by decide)
        · rw [if_neg hterm] at hrun
          obtain ⟨ht, hiff, hnone⟩ := ih (i0 + 1) i b hrun
          refine ⟨ht, hiff, fun j hj1 hj2 hter => ?_⟩
          rcases Nat.eq_or_lt_of_le hj1 with rfl | hlt
          · apply hterm
            rcases hter with hc | hc
            · rw [hobs] at hc
              exact Or.inl (Option.some.inj hc)
            · rw [hobs] at hc
              exact Or.inr (Option.some.inj hc)
          · exact hnone j hlt hj2 hter

/-- Witness for `C9_amended`: overwrite of a present entry, and a concrete
poll run that first sees `working` twice and then exits at the `complete`
observation with result true. -/
theorem C9_amended_witness :
    lookupKey (wait_end_op_init [("X", "working")] "X") "X" =
        some "stopped" ∧
      wait_end_op_poll
          (fun i => if i < 2 then some "working" else some "complete")
          5 0 = some (2, true) ∧
      terminalObs (fun i => if i < 2 then some "working" else some "complete")
        2 := by
  refine ⟨(C9_amended).1 [("X", "working")] "X", by decide, ?_⟩
  exact ((C9_amended).2
    (fun i => if i < 2 then some "working" else some "complete")
    5 0 2 true (by decide)).1

/-! ### C6 : `set_below_horizon_dec_offset`
(seestar_device.py lines 491-519; `reset_below_horizon_dec_offset`
lines 521-546; `_sync_target` lines 557-570)

Device interaction is abstracted by per-call oracles: `syncErr n` tells
whether the `n`-th `_sync_target` of the run comes back with an `error`
field, `slewOk n` whether the `n`-th `_slew_to_ra_dec` succeeds. -/

structure DeviceState where
  ra : ℚ
  dec : ℚ
  below_horizon_dec_offset : ℚ
  site_latitude : ℚ
  safe_dec_for_offset : ℚ
  is_EQ_mode : Bool
deriving DecidableEq

structure Env where
  syncErr : Nat → Bool
  slewOk : Nat → Bool

/-- A run trace: current session state, how many sync / slew calls have been
made, the `(in_ra, in_dec)` arguments of every `_sync_target` call, and the
`scope_sync` params actually sent on the wire
(`[in_ra, in_dec + below_horizon_dec_offset]`, line 564). -/
structure Trace where
  st : DeviceState
  nSync : Nat
  nSlew : Nat
  syncCalls : List (ℚ × ℚ)
  syncWire : List (ℚ × ℚ)

/-- `_sync_target([in_ra, in_dec])`: sends `scope_sync` with the offset
added to the declination; the returned flag is whether the response carried
an `error`. -/
def sync_target_call (env : Env) (t : Trace) (in_ra in_dec : ℚ) :
    Trace × Bool :=
  ({ t with
      nSync := t.nSync + 1
      syncCalls := t.syncCalls ++ [(in_ra, in_dec)]
      syncWire := t.syncWire ++
        [(in_ra, in_dec + t.st.below_horizon_dec_offset)] },
    env.syncErr t.nSync)

/-- `_slew_to_ra_dec`: success means the `scope_goto` was accepted and the
subsequent `goto_target` wait ended in `complete`. -/
def slew_to_ra_dec_call (env : Env) (t : Trace) : Trace × Bool :=
  ({ t with nSlew := t.nSlew + 1 }, env.slewOk t.nSlew)

/-- `reset_below_horizon_dec_offset` (lines 521-546).  Returns `none` for the
bare `return` on a non-EQ mount (Python `None`), otherwise `some result`. -/
def reset_below_horizon_dec_offset (env : Env) (t : Trace) :
    Trace × Option Bool :=
  if t.st.is_EQ_mode = false then (t, none)
  else
    let old_ra := t.st.ra
    let new_dec := t.st.safe_dec_for_offset
    let s1 := slew_to_ra_dec_call env t
    if s1.2 then
      let t2 := { s1.1 with
                  st := { s1.1.st with below_horizon_dec_offset := 0 } }
      let s2 := sync_target_call env t2 old_ra new_dec
      if s2.2 then (s2.1, some false) else (s2.1, some true)
    else (s1.1, some false)

/-- Python truthiness of an `Optional[bool]`. -/
def truthy : Option Bool → Bool
  | none => false
  | some b => b

/-- Lines 510-519 (the tail of `set_below_horizon_dec_offset` shared by both
branches): record `old_dec`, install the offset, `_sync_target` to the old
`(ra, old_dec)`; if the sync errs, set the offset to `0`, issue a
compensating sync and fail. -/
def set_below_horizon_main (env : Env) (t : Trace) (offset : ℚ) :
    Trace × Bool :=
  let old_dec := t.st.dec
  let t1 := { t with st := { t.st with below_horizon_dec_offset := offset } }
  let s1 := sync_target_call env t1 t1.st.ra old_dec
  if s1.2 then
    let t2 := { s1.1 with
                st := { s1.1.st with below_horizon_dec_offset := 0 } }
    let s2 := sync_target_call env t2 t2.st.ra old_dec
    (s2.1, false)
  else (s1.1, true)

/-- `set_below_horizon_dec_offset(offset, target_dec)` (lines 491-519). -/
def set_below_horizon_dec_offset (env : Env) (t : Trace)
    (offset target_dec : ℚ) : Trace × Bool :=
  if offset ≤ 0 then (t, false)
  else if t.st.below_horizon_dec_offset = 0 ∧
      90 - t.st.site_latitude < offset then (t, false)
  else if 70 < t.st.dec + offset then
    let r := reset_below_horizon_dec_offset env t
    if truthy r.2 then
      set_below_horizon_main env r.1
        (-target_dec + r.1.st.safe_dec_for_offset)
    else (r.1, false)
  else
    set_below_horizon_main env t offset

/-- Helper: the shape of the main tail when the first sync errs. -/
theorem set_below_horizon_main_syncErr (env : Env) (t : Trace) (offset : ℚ)
    (h : env.syncErr t.nSync = true) :
    set_below_horizon_main env t offset =
      ({ st := { t.st with below_horizon_dec_offset := 0 },
         nSync := t.nSync + 2,
         nSlew := t.nSlew,
         syncCalls := t.syncCalls ++
           [(t.st.ra, t.st.dec), (t.st.ra, t.st.dec)],
         syncWire := t.syncWire ++
           [(t.st.ra, t.st.dec + offset), (t.st.ra, t.st.dec + 0)] },
        false) := by
  unfold set_below_horizon_main sync_target_call
  simp only [h, if_pos]
  simp [List.append_assoc]

/-- Helper: the shape of the main tail when the sync succeeds. -/
theorem set_below_horizon_main_syncOk (env : Env) (t : Trace) (offset : ℚ)
    (h : env.syncErr t.nSync = false) :
    set_below_horizon_main env t offset =
      ({ st := { t.st with below_horizon_dec_offset := offset },
         nSync := t.nSync + 1,
         nSlew := t.nSlew,
         syncCalls := t.syncCalls ++ [(t.st.ra, t.st.dec)],
         syncWire := t.syncWire ++ [(t.st.ra, t.st.dec + offset)] },
        true) := by
  unfold set_below_horizon_main sync_target_call
  simp [h]

/-- Helper: `reset_below_horizon_dec_offset` never changes `ra`, `dec`,
`site_latitude`, `safe_dec_for_offset` or `is_EQ_mode`. -/
theorem reset_preserves (env : Env) (t : Trace) :
    (reset_below_horizon_dec_offset env t).1.st.ra = t.st.ra ∧
      (reset_below_horizon_dec_offset env t).1.st.dec = t.st.dec ∧
      (reset_below_horizon_dec_offset env t).1.st.safe_dec_for_offset =
        t.st.safe_dec_for_offset := by
  unfold reset_below_horizon_dec_offset slew_to_ra_dec_call sync_target_call
  by_cases heq : t.st.is_EQ_mode = false
  · simp [heq]
  · by_cases hs : env.slewOk t.nSlew
    · by_cases he : env.syncErr t.nSync <;> simp [heq, hs, he]
    · simp [heq, hs]

/-- The state / environment of the C6 failing input: the mount is in EQ mode
with an existing offset of 5, pointing at `(ra, dec) = (1, 0)`, latitude 40;
every sync errs. -/
def c6Trace : Trace :=
  { st := { ra := 1, dec := 0, below_horizon_dec_offset := 5,
            site_latitude := 40, safe_dec_for_offset := 10,
            is_EQ_mode := true },
    nSync := 0, nSlew := 0, syncCalls := [], syncWire := [] }

def c6Env : Env := { syncErr := fun _ => true, slewOk := fun _ => true }

/-- C6 (counterexample): calling `set_below_horizon_dec_offset(10, -20)`
with a pre-call offset of 5 and a failing `scope_sync` returns failure with
the offset set to `0` — NOT reverted to its value (5) before the call. -/
theorem C6_counterexample :
    (set_below_horizon_dec_offset c6Env c6Trace 10 (-20)).2 = false ∧
      (set_below_horizon_dec_offset c6Env c6Trace 10
          (-20)).1.st.below_horizon_dec_offset = 0 ∧
      c6Trace.st.below_horizon_dec_offset = 5 ∧ (0 : ℚ) ≠ 5 := by
  have hrun : set_below_horizon_dec_offset c6Env c6Trace 10 (-20) =
      set_below_horizon_main c6Env c6Trace 10 := by
    unfold set_below_horizon_dec_offset
    rw [if_neg (by norm_num), if_neg (by norm_num [c6Trace]),
      if_neg (by norm_num [c6Trace])]
  rw [hrun, set_below_horizon_main_syncErr c6Env c6Trace 10 rfl]
  refine ⟨rfl, rfl, rfl, by norm_num⟩

/-- C6 (amended): `set_below_horizon_dec_offset(offset, target_dec)` fails
without changing anything when `offset ≤ 0`, and when the current offset is 0
and `offset > 90 − site_latitude`; when `current_dec + offset > 70` it first
resets the existing offset (failing if the reset fails) and applies the
recomputed offset `−target_dec + safe_dec_for_offset`; on success it issues
a `scope_sync` to the old `(ra, old_dec)`; and if that sync fails, a
compensating sync is issued and the offset is set to 0 — not to its pre-call
value — with the function returning failure. -/
theorem C6_amended (env : Env) (t : Trace) (offset target_dec : ℚ) :
    (offset ≤ 0 →
        set_below_horizon_dec_offset env t offset target_dec = (t, false)) ∧
    (¬ offset ≤ 0 → t.st.below_horizon_dec_offset = 0 →
        90 - t.st.site_latitude < offset →
        set_below_horizon_dec_offset env t offset target_dec = (t, false)) ∧
    (¬ offset ≤ 0 →
     ¬ (t.st.below_horizon_dec_offset = 0 ∧
          90 - t.st.site_latitude < offset) →
     70 < t.st.dec + offset →
     truthy (reset_below_horizon_dec_offset env t).2 = false →
        set_below_horizon_dec_offset env t offset target_dec =
          ((reset_below_horizon_dec_offset env t).1, false)) ∧
    (¬ offset ≤ 0 →
     ¬ (t.st.below_horizon_dec_offset = 0 ∧
          90 - t.st.site_latitude < offset) →
     70 < t.st.dec + offset →
     truthy (reset_below_horizon_dec_offset env t).2 = true →
     env.syncErr (reset_below_horizon_dec_offset env t).1.nSync = false →
        (set_below_horizon_dec_offset env t offset target_dec).2 = true ∧
        (set_below_horizon_dec_offset env t offset
            target_dec).1.st.below_horizon_dec_offset =
          -target_dec + t.st.safe_dec_for_offset ∧
        (set_below_horizon_dec_offset env t offset target_dec).1.syncCalls =
          (reset_below_horizon_dec_offset env t).1.syncCalls ++
            [(t.st.ra, t.st.dec)]) ∧
    (¬ offset ≤ 0 →
     ¬ (t.st.below_horizon_dec_offset = 0 ∧
          90 - t.st.site_latitude < offset) →
     ¬ 70 < t.st.dec + offset →
     env.syncErr t.nSync = false →
        set_below_horizon_dec_offset env t offset target_dec =
          ({ st := { t.st with below_horizon_dec_offset := offset },
             nSync := t.nSync + 1,
             nSlew := t.nSlew,
             syncCalls := t.syncCalls ++ [(t.st.ra, t.st.dec)],
             syncWire := t.syncWire ++ [(t.st.ra, t.st.dec + offset)] },
            true)) ∧
    (¬ offset ≤ 0 →
     ¬ (t.st.below_horizon_dec_offset = 0 ∧
          90 - t.st.site_latitude < offset) →
     ¬ 70 < t.st.dec + offset →
     env.syncErr t.nSync = true →
        (set_below_horizon_dec_offset env t offset target_dec).2 = false ∧
        (set_below_horizon_dec_offset env t offset
            target_dec).1.st.below_horizon_dec_offset = 0 ∧
        (set_below_horizon_dec_offset env t offset target_dec).1.syncCalls =
          t.syncCalls ++ [(t.st.ra, t.st.dec), (t.st.ra, t.st.dec)]) := by
  refine ⟨?_, ?_, ?_, ?_, ?_, ?_⟩
  · intro h0
    unfold set_below_horizon_dec_offset
    rw [if_pos h0]
  · intro h0 h1 h2
    unfold set_below_horizon_dec_offset
    rw [if_neg h0, if_pos ⟨h1, h2⟩]
  · intro h0 h1 h2 hres
    unfold set_below_horizon_dec_offset
    rw [if_neg h0, if_neg h1, if_pos h2]
    simp only [hres, Bool.false_eq_true, if_neg, if_false]
  · intro h0 h1 h2 hres hsync
    have hrun : set_below_horizon_dec_offset env t offset target_dec =
        set_below_horizon_main env (reset_below_horizon_dec_offset env t).1
          (-target_dec +
            (reset_below_horizon_dec_offset env t).1.st.safe_dec_for_offset) := by
      unfold set_below_horizon_dec_offset
      rw [if_neg h0, if_neg h1, if_pos h2]
      simp only [hres, if_pos]
    obtain ⟨hra, hdec, hsafe⟩ := reset_preserves env t
    rw [hrun, set_below_horizon_main_syncOk _ _ _ hsync]
    exact ⟨rfl, by simp [hsafe], by simp [hra, hdec]⟩
  · intro h0 h1 h2 hsync
    unfold set_below_horizon_dec_offset
    rw [if_neg h0, if_neg h1, if_neg h2]
    exact set_below_horizon_main_syncOk env t offset hsync
  · intro h0 h1 h2 hsync
    have hrun : set_below_horizon_dec_offset env t offset target_dec =
        set_below_horizon_main env t offset := by
      unfold set_below_horizon_dec_offset
      rw [if_neg h0, if_neg h1, if_neg h2]
    rw [hrun, set_below_horizon_main_syncErr env t offset hsync]
    exact ⟨rfl, rfl, rfl⟩

/-- Witness for `C6_amended`: at the concrete failing-sync input of the
counterexample scenario the sync-failure conjunct applies, and at a
non-positive offset the first conjunct applies. -/
theorem C6_amended_witness :
    ((set_below_horizon_dec_offset c6Env c6Trace 10 (-20)).2 = false ∧
      (set_below_horizon_dec_offset c6Env c6Trace 10
          (-20)).1.st.below_horizon_dec_offset = 0 ∧
      (set_below_horizon_dec_offset c6Env c6Trace 10 (-20)).1.syncCalls =
        c6Trace.syncCalls ++
          [(c6Trace.st.ra, c6Trace.st.dec),
           (c6Trace.st.ra, c6Trace.st.dec)]) ∧
      set_below_horizon_dec_offset c6Env c6Trace (-3) 0 =
        (c6Trace, false) := by
  constructor
  · exact (C6_amended c6Env c6Trace 10 (-20)).2.2.2.2.2
      (by decide) (by decide)
      (by simp only [c6Trace, zero_add]; decide) rfl
  · exact (C6_amended c6Env c6Trace (-3) 0).1 (by decide)

end PyindiSeestar
